import Mathlib

/-!
# Verification of the amcho-pasro client-side scripts

Shallow embedding of the two browser modules of this repository:

* `src/static/home-map.js` — the store map renderer (JSON dataset parsing,
  record normalization and filtering, HTML escaping, marker/popup markup,
  view fitting);
* `src/static/main.js` (and the identical wizard in the second variant) —
  the sidebar controller and the multi-step form state machine.

JavaScript values reachable in this code are modelled by `JVal`; JavaScript
numbers are modelled by `JNum`: a finite number is carried as an exact
rational (IEEE-754 rounding of in-range decimal literals is abstracted away;
decimal values at or beyond 2^1024 in magnitude overflow to infinity, as in
JS), plus `nan` and signed infinities.  DOM state touched by the scripts is
carried as explicit record types, and event dispatch is modelled by
returning the list of events a call emits.
-/

namespace Amcho

/-- JavaScript numbers: finite (exact rational model), NaN, ±Infinity. -/
inductive JNum where
  | fin (q : ℚ)
  | nan
  | inf (neg : Bool)
deriving DecidableEq

/-- JavaScript values reachable in the map-renderer code: `undefined`,
`null`, booleans, numbers, strings, arrays and plain objects (the latter two
are what `JSON.parse` can yield). -/
inductive JVal where
  | jundefined
  | jnull
  | jbool (b : Bool)
  | jnum (n : JNum)
  | jstr (s : String)
  | jarr (xs : List JVal)
  | jobj (fields : List (String × JVal))

/-- The only runtime error this code can raise: a `TypeError` (property
access on `null`/`undefined`, or calling `.map` on a non-array). -/
inductive JsError where
  | typeError
deriving DecidableEq

/-- JavaScript truthiness: `undefined`, `null`, `false`, `0`, `NaN` and the
empty string are falsy; everything else (including any array or object) is
truthy. -/
def truthy : JVal → Bool
  | .jundefined => false
  | .jnull => false
  | .jbool b => b
  | .jnum (.fin q) => decide (q ≠ 0)
  | .jnum .nan => false
  | .jnum (.inf _) => true
  | .jstr s => decide (s ≠ "")
  | .jarr _ => true
  | .jobj _ => true

/-- The JavaScript `a || b` operator: `a` if truthy, otherwise `b`. -/
def jsOr (a b : JVal) : JVal := if truthy a then a else b

/-- Property access `v.key`.  Throws a `TypeError` on `null`/`undefined`;
on an object returns the field (or `undefined` when absent); on any other
value returns `undefined` (none of the keys this code reads exists on a
primitive or array). -/
def getProp (v : JVal) (key : String) : Except JsError JVal :=
  match v with
  | .jundefined => .error .typeError
  | .jnull => .error .typeError
  | .jobj fields =>
      .ok (match fields.lookup key with
           | some x => x
           | none => .jundefined)
  | _ => .ok .jundefined

/-- Whitespace skipped by `parseFloat` (common subset). -/
def isJsWs (c : Char) : Bool := c = ' ' ∨ c = '\t' ∨ c = '\n' ∨ c = '\r'

/-- Value of a list of decimal digit characters. -/
def digNat (ds : List Char) : ℕ :=
  ds.foldl (fun acc c => 10 * acc + (c.toNat - 48)) 0

/-- `parseFloat` on the character list after leading whitespace: optional
sign, then either the literal `Infinity` or decimal digits with optional
fraction and exponent; trailing garbage is ignored; no digits at all gives
`NaN`.  A decimal value of magnitude at least 2^1024 overflows to the
signed infinity, as the IEEE-754 double it would round to. -/
def parseFloatCore (cs0 : List Char) : JNum :=
  let signed : Bool × List Char :=
    match cs0 with
    | '-' :: rest => (true, rest)
    | '+' :: rest => (false, rest)
    | _ => (false, cs0)
  let neg := signed.1
  let cs := signed.2
  if cs.take 8 = "Infinity".toList then .inf neg
  else
    let intDigits := cs.takeWhile Char.isDigit
    let cs1 := cs.dropWhile Char.isDigit
    let fracPart : List Char × List Char :=
      match cs1 with
      | '.' :: rest => (rest.takeWhile Char.isDigit, rest.dropWhile Char.isDigit)
      | _ => ([], cs1)
    let fracDigits := fracPart.1
    let cs2 := fracPart.2
    if intDigits.isEmpty ∧ fracDigits.isEmpty then .nan
    else
      let mant : ℚ := (digNat intDigits : ℚ) + (digNat fracDigits : ℚ) / (10 ^ fracDigits.length)
      let exp : ℤ :=
        match cs2 with
        | e :: rest =>
            if e = 'e' ∨ e = 'E' then
              let esigned : Bool × List Char :=
                match rest with
                | '-' :: r => (true, r)
                | '+' :: r => (false, r)
                | _ => (false, rest)
              let eds := esigned.2.takeWhile Char.isDigit
              if eds.isEmpty then 0
              else if esigned.1 then -(digNat eds : ℤ) else (digNat eds : ℤ)
            else 0
        | [] => 0
      let q0 : ℚ := mant * (10 : ℚ) ^ exp
      let q : ℚ := if neg then -q0 else q0
      if q ≤ -((2 ^ 1024 : ℕ) : ℚ) then .inf true
      else if ((2 ^ 1024 : ℕ) : ℚ) ≤ q then .inf false
      else .fin q

/-- JavaScript `parseFloat`: skip leading whitespace, then parse the longest
numeric prefix. -/
def parseFloat (s : String) : JNum :=
  parseFloatCore (s.toList.dropWhile isJsWs)

/-- `Number.isFinite`: true exactly for finite numbers, no coercion. -/
def isFiniteNum : JVal → Bool
  | .jnum (.fin _) => true
  | _ => false

/-- A normalized store record, as built by the `.map` step of
`normalizedStores` in `home-map.js`.  Fields keep their JavaScript values
(the source does not force them to strings). -/
structure NStore where
  id : JVal
  name : JVal
  city : JVal
  location : JVal
  image : JVal
  lat : JVal
  lng : JVal

/-- Coordinate coercion from `home-map.js`:
`typeof v === "string" ? parseFloat(v) : v`. -/
def coerceCoord (v : JVal) : JVal :=
  match v with
  | .jstr s => .jnum (parseFloat s)
  | _ => v

/-- One element of the `.map` callback in `normalizedStores`: read each
property (throws on a `null`/`undefined` element), default `name` to
`"Store"` and `city`/`location`/`image` to `""` via `||`, and coerce the
coordinates. -/
def normalizeStore (store : JVal) : Except JsError NStore := do
  let id ← getProp store "id"
  let name ← getProp store "name"
  let city ← getProp store "city"
  let location ← getProp store "location"
  let image ← getProp store "image"
  let lat ← getProp store "lat"
  let lng ← getProp store "lng"
  return { id := id
           name := jsOr name (.jstr "Store")
           city := jsOr city (.jstr "")
           location := jsOr location (.jstr "")
           image := jsOr image (.jstr "")
           lat := coerceCoord lat
           lng := coerceCoord lng }

/-- The `.filter` predicate of `normalizedStores`:
`Number.isFinite(store.lat) && Number.isFinite(store.lng)`. -/
def keepStore (s : NStore) : Bool :=
  isFiniteNum s.lat && isFiniteNum s.lng

/-- `normalizedStores` from `home-map.js`: `stores.map(...).filter(...)`.
Calling `.map` on anything that is not an array throws a `TypeError`
(`stores.map is not a function`, or a property-access throw for
`null`/`undefined`). -/
def normalizedStores (stores : JVal) : Except JsError (List NStore) :=
  match stores with
  | .jarr xs => (xs.mapM normalizeStore).map (List.filter keepStore)
  | _ => .error .typeError

/-! ## Markup construction (`escapeAttr`, `buildStoreIcon`, the popup)

The markup builders interpolate store fields into HTML strings.  They are
modelled over `String` arguments: JavaScript string interpolation is the
identity on strings, which is the only case the spec's examples exercise. -/

/-- Global replacement of one character by a string, the meaning of
`.replace(/c/g, rep)` for a single-character pattern. -/
def replaceChar (s : String) (c : Char) (rep : String) : String :=
  String.mk (s.toList.foldr (fun ch acc => if ch = c then rep.toList ++ acc else ch :: acc) [])

/-- JavaScript `String.prototype.trim`: strip leading and trailing
whitespace. -/
def jsTrim (s : String) : String :=
  String.mk (((s.toList.dropWhile isJsWs).reverse.dropWhile isJsWs).reverse)

/-- JavaScript `Array.prototype.join(sep)` on an array of strings. -/
def jsJoin (sep : String) : List String → String
  | [] => ""
  | [x] => x
  | x :: y :: xs => x ++ sep ++ jsJoin sep (y :: xs)

/-- `escapeAttr` from `home-map.js`: `String(str || "")` followed by global
replacement of `&`, `"`, `<`, `>` (in that order) with their entities. -/
def escapeAttr (s : String) : String :=
  replaceChar (replaceChar (replaceChar (replaceChar s '&' "&amp;") '"' "&quot;") '<' "&lt;") '>' "&gt;"

/-- The initial shown in an imageless pin:
`(store.name || "S").trim().charAt(0).toUpperCase() || "S"`. -/
def storeInitial (name : String) : String :=
  let base := if name = "" then "S" else name
  match (jsTrim base).toList with
  | [] => "S"
  | c :: _ => String.mk [c.toUpper]

/-- The `photoHtml` fragment of `buildStoreIcon`: an escaped `<img>` when an
image URL is present, otherwise a `<span>` holding the initial. -/
def photoHtml (name image : String) : String :=
  if image ≠ "" then
    "<img src=\"" ++ escapeAttr image ++ "\" alt=\"" ++ escapeAttr name
      ++ " thumbnail\" loading=\"lazy\" />"
  else
    "<span>" ++ storeInitial name ++ "</span>"

/-- The `html` option passed to `L.divIcon` by `buildStoreIcon`. -/
def buildStoreIconHtml (name image : String) : String :=
  let extraClass := if image ≠ "" then " map-pin__inner--photo" else ""
  "<div class=\"map-pin__inner" ++ extraClass ++ "\">" ++ photoHtml name image ++ "</div>"

/-- `labelLocation` from the marker loop:
`[store.location, store.city].filter(Boolean).join(", ")`. -/
def labelLocation (location city : String) : String :=
  jsJoin ", " (([location, city]).filter (fun s => s ≠ ""))

/-- The popup markup bound to each marker (`popupHtml` in `home-map.js`),
including the template literal's exact whitespace and the final `.trim()`.
Note the source interpolates `store.name`, the location label and
`store.id` directly, without `escapeAttr`. -/
def popupHtml (name location city id : String) : String :=
  let labelLoc := labelLocation location city
  jsTrim ("\n      <div class=\"home-map-popup\">\n        <strong>" ++ name
    ++ "</strong><br />\n        " ++ (if labelLoc = "" then "Goa" else labelLoc)
    ++ "<br />\n        <a href=\"/store/" ++ id
    ++ "\" target=\"_blank\" rel=\"noopener\">Open store page</a>\n      </div>\n    ")

/-! ## View fitting and the rendering pipeline -/

/-- The final map-view command issued after the marker loop. -/
inductive ViewCmd where
  | fitBounds (pts : List (ℚ × ℚ)) (padding : ℕ × ℕ) (maxZoom : ℕ)
  | setView (center : ℚ × ℚ) (zoom : ℕ)

/-- The coordinate pushed onto `bounds` for a kept store.  Kept stores have
finite numeric coordinates, extracted here (0 as an irrelevant junk value
for the impossible non-finite case). -/
def coordOf (s : NStore) : ℚ × ℚ :=
  (match s.lat with | .jnum (.fin q) => q | _ => 0,
   match s.lng with | .jnum (.fin q) => q | _ => 0)

/-- Outcome of the renderer once the store list is normalized. -/
inductive RenderResult where
  | emptyState
  | view (markers : List NStore) (cmd : ViewCmd)

/-- The tail of the renderer: the empty state when no valid store remains;
otherwise one marker per store and then `fitBounds(bounds, {padding:[30,30],
maxZoom:15})` when `bounds.length > 1`, else `setView(bounds[0], 13)`. -/
def render (l : List NStore) : RenderResult :=
  match l with
  | [] => .emptyState
  | [s] => .view [s] (.setView (coordOf s) 13)
  | s :: s2 :: rest => .view (s :: s2 :: rest) (.fitBounds ((s :: s2 :: rest).map coordOf) (30, 30) 15)

/-- The raw attribute text handed to `JSON.parse`:
`mapEl.dataset.stores || "[]"` — an absent or empty attribute falls back to
the literal `"[]"`. -/
def datasetRaw (attr : Option String) : String :=
  match attr with
  | none => "[]"
  | some s => if s = "" then "[]" else s

/-- The whole renderer, as a function of the outcome of the environment's
`JSON.parse` on `datasetRaw attr`.  The `try`/`catch` covers only the parse:
a parse failure logs a warning (the returned `Bool`) and proceeds with `[]`;
any later throw (from `normalizedStores`) escapes uncaught. -/
def runHomeMap (parseResult : Except Unit JVal) : Bool × Except JsError RenderResult :=
  let parsed : Bool × JVal :=
    match parseResult with
    | .error _ => (true, .jarr [])
    | .ok v => (false, v)
  match normalizedStores parsed.2 with
  | .error e => (parsed.1, .error e)
  | .ok l => (parsed.1, .ok (render l))

/-! ## Sidebar controller (`main.js`)

The three elements are looked up once at load; each may be absent (`null`),
and every class mutation is guarded by a presence check.  An element's
state is its `classList.contains("active")` flag, carried as `Option Bool`
(`none` = element absent). -/

/-- DOM state touched by the sidebar code: the `active` class on the toggle
button, panel and overlay (when each exists), and `document.body.style.overflow`. -/
structure SidebarDom where
  toggleActive : Option Bool
  panelActive : Option Bool
  overlayActive : Option Bool
  bodyOverflow : String
deriving DecidableEq

/-- `openSidebar`: add `active` to each present element and set
`document.body.style.overflow = "hidden"`. -/
def openSidebar (s : SidebarDom) : SidebarDom :=
  { toggleActive := s.toggleActive.map (fun _ => true)
    panelActive := s.panelActive.map (fun _ => true)
    overlayActive := s.overlayActive.map (fun _ => true)
    bodyOverflow := "hidden" }

/-- `closeSidebar`: remove `active` from each present element and set
`document.body.style.overflow = ""`. -/
def closeSidebar (s : SidebarDom) : SidebarDom :=
  { toggleActive := s.toggleActive.map (fun _ => false)
    panelActive := s.panelActive.map (fun _ => false)
    overlayActive := s.overlayActive.map (fun _ => false)
    bodyOverflow := "" }

/-- The `resize` listener: close the sidebar when
`window.innerWidth > 768 && mobileSidebar && mobileSidebar.classList.contains("active")`,
otherwise do nothing. -/
def onResize (innerWidth : ℕ) (s : SidebarDom) : SidebarDom :=
  if innerWidth > 768 ∧ s.panelActive = some true then closeSidebar s else s

/-! ## Multi-step form wizard (`main.js`, `initMultiStepForms`)

One instance per qualifying form (more than one `.form-step`).  The fixed
configuration is the number of step panels and progress indicators and the
form's `id`; the mutable DOM state is rebuilt wholesale by `setStep`.
Events dispatched on `window` are returned explicitly. -/

/-- Fixed per-form data read once at setup. -/
structure FormCfg where
  numSteps : ℕ
  numProgress : ℕ
  id : String
deriving DecidableEq

/-- State of one `.form-step` panel: the `is-active` class and the
`aria-hidden` attribute (a string, written as `String(!isActive)`). -/
structure StepPanel where
  isActive : Bool
  ariaHidden : String
deriving DecidableEq

/-- State of one `.form-progress__step` indicator. -/
structure ProgressStep where
  isActive : Bool
  isComplete : Bool
deriving DecidableEq

/-- Mutable state of a form instance: `activeIndex` plus the DOM state the
wizard controls.  The three buttons may be absent (`none`); when present the
value is the `disabled` (prev) or `hidden` (next/submit) flag. -/
structure FormState where
  activeIndex : ℕ
  panels : List StepPanel
  progress : List ProgressStep
  prevDisabled : Option Bool
  nextHidden : Option Bool
  submitHidden : Option Bool
deriving DecidableEq

/-- The payload of the `amcho:stepchange` `CustomEvent` dispatched on
`window`. -/
structure StepEvent where
  formId : Option String
  stepIndex : ℕ
  stepNumber : ℕ
deriving DecidableEq

/-- `form.id || null`: the empty `id` property (form without an `id`
attribute) becomes `null`. -/
def evFormId (cfg : FormCfg) : Option String :=
  if cfg.id = "" then none else some cfg.id

/-- `setStep(newIndex)`: reject any index outside `[0, steps.length-1]`
without touching anything; otherwise rebuild every panel, every progress
indicator and the button states, record the new `activeIndex`, and dispatch
exactly one `amcho:stepchange` event.  `newIndex` is an integer because the
callers pass `activeIndex ± 1`. -/
def setStep (cfg : FormCfg) (st : FormState) (newIndex : ℤ) : FormState × List StepEvent :=
  if newIndex < 0 ∨ (cfg.numSteps : ℤ) ≤ newIndex then (st, [])
  else
    let n : ℕ := newIndex.toNat
    ({ activeIndex := n
       panels := (List.range cfg.numSteps).map (fun idx =>
         { isActive := decide (idx = n)
           ariaHidden := if idx = n then "false" else "true" })
       progress := (List.range cfg.numProgress).map (fun idx =>
         { isActive := decide (idx = n), isComplete := decide (idx < n) })
       prevDisabled := st.prevDisabled.map (fun _ => decide (n = 0))
       nextHidden := st.nextHidden.map (fun _ => decide (n = cfg.numSteps - 1))
       submitHidden := st.submitHidden.map (fun _ => decide (n ≠ cfg.numSteps - 1)) },
     [{ formId := evFormId cfg, stepIndex := n, stepNumber := n + 1 }])

/-- `validateStep`: walk the step's `input`/`select`/`textarea` controls and
return `false` at the first one whose `reportValidity()` is `false`; a
control without a `reportValidity` function (`none`) is skipped, as by the
`typeof` guard.  Each entry carries the environment's constraint-validation
signal for one control. -/
def validateStep (controls : List (Option Bool)) : Bool :=
  controls.all (fun c =>
    match c with
    | none => true
    | some b => b)

/-- A user action on the wizard, with the environment's validity responses
for the current step's controls captured at click time. -/
inductive FormAction where
  | next (controls : List (Option Bool))
  | prev

/-- The `[data-step-action]` click handler: `next` runs `validateStep` on
the current step and, only on success, `setStep(activeIndex + 1)`; `prev`
runs `setStep(activeIndex - 1)` unconditionally. -/
def formStep (cfg : FormCfg) (st : FormState) : FormAction → FormState × List StepEvent
  | .next controls =>
      if validateStep controls then setStep cfg st ((st.activeIndex : ℤ) + 1)
      else (st, [])
  | .prev => setStep cfg st ((st.activeIndex : ℤ) - 1)

/-- Setup of one qualifying form: `let activeIndex = 0; setStep(activeIndex)`
applied to whatever initial DOM state the page shipped. -/
def initForm (cfg : FormCfg) (dom : FormState) : FormState × List StepEvent :=
  setStep cfg { dom with activeIndex := 0 } 0

/-- The state reached after a sequence of clicks. -/
def runForm (cfg : FormCfg) (st : FormState) (acts : List FormAction) : FormState :=
  acts.foldl (fun s a => (formStep cfg s a).1) st

/-! ## Concrete data used by the witnesses -/

/-- A raw store record with string coordinates, as embedded JSON. -/
def rawStoreA : JVal :=
  .jobj [("id", .jstr "s1"), ("name", .jstr "A"), ("lat", .jstr "15.4"), ("lng", .jstr "73.8")]

/-- A raw store record with a non-numeric `lat` and a missing `lng`. -/
def rawStoreB : JVal :=
  .jobj [("id", .jstr "s2"), ("lat", .jstr "abc")]

/-- `rawStoreA` after normalization: coordinates coerced to finite numbers. -/
def normStoreA : NStore :=
  { id := .jstr "s1", name := .jstr "A", city := .jstr "", location := .jstr "",
    image := .jstr "", lat := .jnum (.fin (77/5)), lng := .jnum (.fin (369/5)) }

/-- `rawStoreB` after normalization: `lat` coerced to `NaN`, `lng` still
`undefined`, `name` defaulted. -/
def normStoreB : NStore :=
  { id := .jstr "s2", name := .jstr "Store", city := .jstr "", location := .jstr "",
    image := .jstr "", lat := .jnum .nan, lng := .jundefined }

/-- A plotted store at (15, 73). -/
def pinA : NStore :=
  { id := .jstr "a", name := .jstr "A", city := .jstr "", location := .jstr "",
    image := .jstr "", lat := .jnum (.fin 15), lng := .jnum (.fin 73) }

/-- A plotted store at (16, 74). -/
def pinB : NStore :=
  { id := .jstr "b", name := .jstr "B", city := .jstr "", location := .jstr "",
    image := .jstr "", lat := .jnum (.fin 16), lng := .jnum (.fin 74) }

/-- A three-step form with three progress indicators. -/
def demoCfg : FormCfg := { numSteps := 3, numProgress := 3, id := "signupForm" }

/-- A form state sitting at step 0 (also the pre-setup DOM state). -/
def demoZero : FormState :=
  { activeIndex := 0, panels := [], progress := [],
    prevDisabled := some false, nextHidden := some false, submitHidden := some false }

/-- A form state sitting at the middle step. -/
def demoMid : FormState := { demoZero with activeIndex := 1 }

/-- A form state sitting at the last step of `demoCfg`. -/
def demoLast : FormState := { demoZero with activeIndex := 2 }

/-- A short interaction: a rejected `prev`, a validated `next`, a `next`
stopped by an invalid control. -/
def demoActs : List FormAction := [.prev, .next [some true], .next [none, some false]]

/-- The event emitted by `setStep demoCfg demoZero 1`. -/
def demoEvent : StepEvent := { formId := some "signupForm", stepIndex := 1, stepNumber := 2 }

/-- A closed sidebar with all three elements present. -/
def demoSidebar : SidebarDom :=
  { toggleActive := some false, panelActive := some false,
    overlayActive := some false, bodyOverflow := "" }

/-- An open sidebar with all three elements present. -/
def demoOpenSidebar : SidebarDom :=
  { toggleActive := some true, panelActive := some true,
    overlayActive := some true, bodyOverflow := "hidden" }

/-! ## Bounding boxes of plotted coordinates -/

/-- Minimum of a list of rationals (0 on the empty list, which never
arises). -/
def listMin : List ℚ → ℚ
  | [] => 0
  | [x] => x
  | x :: y :: xs => min x (listMin (y :: xs))

/-- Maximum of a list of rationals (0 on the empty list, which never
arises). -/
def listMax : List ℚ → ℚ
  | [] => 0
  | [x] => x
  | x :: y :: xs => max x (listMax (y :: xs))

/-- Membership of a point in the bounding box spanned by a list of
latitude/longitude pairs — what `L.latLngBounds(bounds)` covers when the
view is fitted to `bounds`. -/
def inBBox (pts : List (ℚ × ℚ)) (p : ℚ × ℚ) : Prop :=
  listMin (pts.map Prod.fst) ≤ p.1 ∧ p.1 ≤ listMax (pts.map Prod.fst) ∧
  listMin (pts.map Prod.snd) ≤ p.2 ∧ p.2 ≤ listMax (pts.map Prod.snd)

theorem listMin_le {l : List ℚ} {x : ℚ} (hx : x ∈ l) : listMin l ≤ x := by
  induction l with
  | nil => cases hx
  | cons a t ih =>
    cases t with
    | nil =>
      rcases List.mem_cons.mp hx with h | h
      · simp [listMin, h]
      · cases h
    | cons b t2 =>
      rcases List.mem_cons.mp hx with h | h
      · subst h; exact min_le_left _ _
      · exact le_trans (min_le_right _ _) (ih h)

theorem le_listMax {l : List ℚ} {x : ℚ} (hx : x ∈ l) : x ≤ listMax l := by
  induction l with
  | nil => cases hx
  | cons a t ih =>
    cases t with
    | nil =>
      rcases List.mem_cons.mp hx with h | h
      · simp [listMax, h]
      · cases h
    | cons b t2 =>
      rcases List.mem_cons.mp hx with h | h
      · subst h; exact le_max_left _ _
      · exact le_trans (ih h) (le_max_right _ _)

theorem mem_inBBox {pts : List (ℚ × ℚ)} {p : ℚ × ℚ} (hp : p ∈ pts) : inBBox pts p :=
  ⟨listMin_le (List.mem_map_of_mem Prod.fst hp),
   le_listMax (List.mem_map_of_mem Prod.fst hp),
   listMin_le (List.mem_map_of_mem Prod.snd hp),
   le_listMax (List.mem_map_of_mem Prod.snd hp)⟩

/-! ## Claims about the store map renderer -/

/-- Claim C1 (code bug): the spec requires every piece of text interpolated
into marker and popup markup to be HTML-escaped, and gives the example that
a store named `<b>X</b>` renders its popup name as literal escaped text.
The code escapes the icon markup but interpolates the name into the popup
unescaped: evaluated at the spec's own example store
(`id:"s1"`, `name:"<b>X</b>"`), the popup markup contains the raw `<b>X</b>`
markup, while `escapeAttr` would have produced `&lt;b&gt;X&lt;/b&gt;` (as
the icon markup, third conjunct, indeed does for its `alt` text). -/
theorem C1_popup_name_unescaped :
    popupHtml "<b>X</b>" "" "" "s1"
      = "<div class=\"home-map-popup\">\n        <strong><b>X</b></strong><br />\n        Goa<br />\n        <a href=\"/store/s1\" target=\"_blank\" rel=\"noopener\">Open store page</a>\n      </div>"
  ∧ escapeAttr "<b>X</b>" = "&lt;b&gt;X&lt;/b&gt;"
  ∧ buildStoreIconHtml "<b>X</b>" "pic.png"
      = "<div class=\"map-pin__inner map-pin__inner--photo\"><img src=\"pic.png\" alt=\"&lt;b&gt;X&lt;/b&gt; thumbnail\" loading=\"lazy\" /></div>" := by
  exact ⟨rfl, rfl, rfl⟩

/-- Claim C2 (counterexample): dataset content that is valid JSON but not an
array — here the number `5`, i.e. attribute text `"5"` — passes the
`try`/`catch` untouched, and then `stores.map` throws a `TypeError` that
nothing catches: the renderer fails instead of logging a warning and
rendering the empty state. -/
theorem C2_nonarray_throws :
    runHomeMap (.ok (.jnum (.fin 5))) = (false, .error .typeError) := rfl

/-- Claim C2 (amended): an absent or empty dataset attribute falls back to
the text `"[]"`; a JSON parse failure logs a warning and proceeds with an
empty store list; in both cases the renderer reaches the empty state
instead of failing the page.  (Parsed content that is not an array is not
recovered — see the counterexample.) -/
theorem C2_parse_failure_recovers :
    datasetRaw none = "[]"
  ∧ datasetRaw (some "") = "[]"
  ∧ runHomeMap (.error ()) = (true, .ok .emptyState)
  ∧ runHomeMap (.ok (.jarr [])) = (false, .ok .emptyState) := by
  exact ⟨rfl, rfl, rfl, rfl⟩

/-- Claim C5: string coordinates are coerced with `parseFloat`; when every
raw record normalizes without throwing, the rendered list is exactly the
normalized list filtered by coordinate finiteness, so a record is kept if
and only if both its coerced coordinates are finite numbers; a missing
(`undefined`) or non-numeric (`NaN`) coordinate is never finite, so such
records are excluded. -/
theorem C5_coordinate_filter (xs : List JVal) (ys : List NStore)
    (h : xs.mapM normalizeStore = Except.ok ys) :
    normalizedStores (.jarr xs) = .ok (ys.filter keepStore)
  ∧ (∀ s : String, coerceCoord (.jstr s) = .jnum (parseFloat s))
  ∧ (∀ s ∈ ys, (s ∈ ys.filter keepStore ↔ (isFiniteNum s.lat = true ∧ isFiniteNum s.lng = true)))
  ∧ isFiniteNum .jundefined = false
  ∧ isFiniteNum (.jnum .nan) = false := by
  refine ⟨by simp only [normalizedStores]; rw [h]; rfl, fun s => rfl, ?_, rfl, rfl⟩
  intro s hs
  simp [List.mem_filter, hs, keepStore, Bool.and_eq_true]

/-- Claim C6: with exactly one valid store the view is centered on that
store's coordinates at the fixed single-store zoom 13; with two or more,
the view is fitted to the list of all plotted coordinates with padding
`[30, 30]` and max zoom 15, and every plotted coordinate lies inside the
bounding box of that list. -/
theorem C6_view_fitting (s : NStore) (l : List NStore) (h2 : 2 ≤ l.length) :
    render [s] = .view [s] (.setView (coordOf s) 13)
  ∧ render l = .view l (.fitBounds (l.map coordOf) (30, 30) 15)
  ∧ (∀ p ∈ l.map coordOf, inBBox (l.map coordOf) p) := by
  refine ⟨rfl, ?_, fun p hp => mem_inBBox hp⟩
  match l with
  | [] => simp at h2
  | [a] => simp at h2
  | a :: b :: t => rfl

set_option exponentiation.threshold 1100 in
set_option maxRecDepth 20000 in
/-- Witness for C5 at the concrete records `rawStoreA` (kept) and
`rawStoreB` (dropped). -/
theorem C5_coordinate_filter_witness :
    ([rawStoreA, rawStoreB].mapM normalizeStore = Except.ok [normStoreA, normStoreB])
  ∧ normalizedStores (.jarr [rawStoreA, rawStoreB]) = .ok ([normStoreA, normStoreB].filter keepStore)
  ∧ (normStoreA ∈ [normStoreA, normStoreB].filter keepStore ↔
      (isFiniteNum normStoreA.lat = true ∧ isFiniteNum normStoreA.lng = true)) :=
  ⟨by with_unfolding_all rfl,
   (C5_coordinate_filter [rawStoreA, rawStoreB] [normStoreA, normStoreB]
     (by with_unfolding_all rfl)).1,
   (C5_coordinate_filter [rawStoreA, rawStoreB] [normStoreA, normStoreB]
     (by with_unfolding_all rfl)).2.2.1 normStoreA (by simp)⟩

/-- Witness for C6 at a singleton list and at the two-store list
`[pinA, pinB]`. -/
theorem C6_view_fitting_witness :
    2 ≤ ([pinA, pinB] : List NStore).length
  ∧ render [pinA] = .view [pinA] (.setView (coordOf pinA) 13)
  ∧ render [pinA, pinB] = .view [pinA, pinB] (.fitBounds ([pinA, pinB].map coordOf) (30, 30) 15)
  ∧ inBBox ([pinA, pinB].map coordOf) (coordOf pinA) :=
  ⟨by simp,
   (C6_view_fitting pinA [pinA, pinB] (by simp)).1,
   (C6_view_fitting pinA [pinA, pinB] (by simp)).2.1,
   (C6_view_fitting pinA [pinA, pinB] (by simp)).2.2 (coordOf pinA) (by simp)⟩

/-! ## Claims about the multi-step form wizard -/

theorem setStep_reject {cfg : FormCfg} {st : FormState} {n : ℤ}
    (h : n < 0 ∨ (cfg.numSteps : ℤ) ≤ n) :
    setStep cfg st n = (st, []) := by
  simp [setStep, h]

theorem setStep_index_lt {cfg : FormCfg} {st : FormState} {n : ℤ}
    (h : st.activeIndex < cfg.numSteps) :
    ((setStep cfg st n).1).activeIndex < cfg.numSteps := by
  by_cases hc : n < 0 ∨ (cfg.numSteps : ℤ) ≤ n
  · simp [setStep, hc, h]
  · simp [setStep, hc]
    omega

theorem formStep_index_lt {cfg : FormCfg} {st : FormState} (a : FormAction)
    (h : st.activeIndex < cfg.numSteps) :
    ((formStep cfg st a).1).activeIndex < cfg.numSteps := by
  cases a with
  | next controls =>
    by_cases hv : validateStep controls = true
    · simpa [formStep, hv] using setStep_index_lt h
    · simpa [formStep, hv] using h
  | prev => simpa [formStep] using setStep_index_lt h

theorem runForm_index_lt {cfg : FormCfg} (acts : List FormAction) {st : FormState}
    (h : st.activeIndex < cfg.numSteps) :
    (runForm cfg st acts).activeIndex < cfg.numSteps := by
  induction acts generalizing st with
  | nil => exact h
  | cons a t ih => exact ih (formStep_index_lt a h)

theorem initForm_index {cfg : FormCfg} {st0 : FormState} :
    (initForm cfg st0).1.activeIndex = 0 := by
  simp only [initForm, setStep]
  split
  · rfl
  · rfl

/-- Claim C3: for a form with more than one step the index starts at 0 and
every sequence of next/prev clicks keeps it inside `[0, numSteps-1]` (it is
a natural number, so 0 is a lower bound by type); a `next` on the last step
and a `prev` on step 0 are rejected as complete no-ops, returning the state
— panels, progress indicators and all — unchanged and emitting nothing. -/
theorem C3_step_index_bounded (cfg : FormCfg) (st0 : FormState) (acts : List FormAction)
    (hN : 1 < cfg.numSteps) :
    (initForm cfg st0).1.activeIndex = 0
  ∧ (runForm cfg (initForm cfg st0).1 acts).activeIndex < cfg.numSteps
  ∧ (∀ st : FormState, ∀ controls : List (Option Bool),
       st.activeIndex = cfg.numSteps - 1 → formStep cfg st (.next controls) = (st, []))
  ∧ (∀ st : FormState, st.activeIndex = 0 → formStep cfg st .prev = (st, [])) := by
  refine ⟨initForm_index,
          runForm_index_lt acts (lt_of_eq_of_lt initForm_index (by omega)),
          ?_, ?_⟩
  · intro st controls hst
    by_cases hv : validateStep controls = true
    · simp only [formStep, hv, if_true]
      exact setStep_reject (Or.inr (by omega))
    · simp [formStep, hv]
  · intro st hst
    exact setStep_reject (Or.inl (by omega))

/-- Witness for C3 on the three-step `demoCfg`, the interaction `demoActs`,
and the extreme states `demoLast` and `demoZero`. -/
theorem C3_step_index_bounded_witness :
    1 < demoCfg.numSteps
  ∧ (initForm demoCfg demoZero).1.activeIndex = 0
  ∧ (runForm demoCfg (initForm demoCfg demoZero).1 demoActs).activeIndex < demoCfg.numSteps
  ∧ formStep demoCfg demoLast (.next [some true]) = (demoLast, [])
  ∧ formStep demoCfg demoZero .prev = (demoZero, []) :=
  ⟨by decide,
   (C3_step_index_bounded demoCfg demoZero demoActs (by decide)).1,
   (C3_step_index_bounded demoCfg demoZero demoActs (by decide)).2.1,
   (C3_step_index_bounded demoCfg demoZero demoActs (by decide)).2.2.1 demoLast [some true] (by decide),
   (C3_step_index_bounded demoCfg demoZero demoActs (by decide)).2.2.2 demoZero (by decide)⟩

/-- Claim C4: a `next` click is permitted only when `validateStep` accepts
every control of the current step: an invalid control aborts the click with
the whole state unchanged, a valid step (below the last index) advances the
index by exactly 1, and any change of index implies validation passed. -/
theorem C4_next_validation (cfg : FormCfg) (st : FormState) (controls : List (Option Bool))
    (h : st.activeIndex + 1 < cfg.numSteps) :
    (validateStep controls = false → formStep cfg st (.next controls) = (st, []))
  ∧ (validateStep controls = true →
       ((formStep cfg st (.next controls)).1).activeIndex = st.activeIndex + 1)
  ∧ (((formStep cfg st (.next controls)).1).activeIndex ≠ st.activeIndex →
       validateStep controls = true) := by
  refine ⟨?_, ?_, ?_⟩
  · intro hv
    simp [formStep, hv]
  · intro hv
    have hc : ¬(((st.activeIndex : ℤ) + 1) < 0 ∨ (cfg.numSteps : ℤ) ≤ (st.activeIndex : ℤ) + 1) := by
      omega
    simp [formStep, hv, setStep, hc]
  · intro hne
    by_cases hv : validateStep controls = true
    · exact hv
    · exact absurd (by simp [formStep, hv]) hne

/-- Witness for C4 at `demoCfg`, `demoZero` and a single valid control. -/
theorem C4_next_validation_witness :
    demoZero.activeIndex + 1 < demoCfg.numSteps
  ∧ ((validateStep [some true] = false →
        formStep demoCfg demoZero (.next [some true]) = (demoZero, []))
  ∧ (validateStep [some true] = true →
        ((formStep demoCfg demoZero (.next [some true])).1).activeIndex = demoZero.activeIndex + 1)
  ∧ (((formStep demoCfg demoZero (.next [some true])).1).activeIndex ≠ demoZero.activeIndex →
        validateStep [some true] = true)) :=
  ⟨by decide, C4_next_validation demoCfg demoZero [some true] (by decide)⟩

/-- Claim C7: the initial `setStep(0)` of a multi-step form and every
accepted transition dispatch exactly one `amcho:stepchange` event on
`window`, carrying the form's identifier and the new step index; a
rejected transition — validation failure, `next` on the last step, `prev`
on step 0 — dispatches none. -/
theorem C7_stepchange_events (cfg : FormCfg) (st0 st : FormState)
    (controls : List (Option Bool)) (hN : 1 < cfg.numSteps)
    (hin : st.activeIndex < cfg.numSteps) :
    (initForm cfg st0).2 = [{ formId := evFormId cfg, stepIndex := 0, stepNumber := 1 }]
  ∧ (validateStep controls = true → st.activeIndex + 1 < cfg.numSteps →
      (formStep cfg st (.next controls)).2
        = [{ formId := evFormId cfg, stepIndex := st.activeIndex + 1,
             stepNumber := st.activeIndex + 2 }])
  ∧ (validateStep controls = false → (formStep cfg st (.next controls)).2 = [])
  ∧ (st.activeIndex = cfg.numSteps - 1 → (formStep cfg st (.next controls)).2 = [])
  ∧ (0 < st.activeIndex → (formStep cfg st .prev).2
        = [{ formId := evFormId cfg, stepIndex := st.activeIndex - 1,
             stepNumber := st.activeIndex }])
  ∧ (st.activeIndex = 0 → (formStep cfg st .prev).2 = []) := by
  refine ⟨?_, ?_, ?_, ?_, ?_, ?_⟩
  · have hc : ¬((0 : ℤ) < 0 ∨ (cfg.numSteps : ℤ) ≤ 0) := by omega
    simp only [initForm, setStep]
    rw [if_neg hc]
    rfl
  · intro hv hlt
    have hc : ¬(((st.activeIndex : ℤ) + 1) < 0 ∨ (cfg.numSteps : ℤ) ≤ (st.activeIndex : ℤ) + 1) := by
      omega
    have h1 : ((st.activeIndex : ℤ) + 1).toNat = st.activeIndex + 1 := by omega
    simp [formStep, hv, setStep, hc, h1]
  · intro hv
    simp [formStep, hv]
  · intro hst
    by_cases hv : validateStep controls = true
    · simp only [formStep, hv, if_true]
      rw [setStep_reject (Or.inr (by omega))]
    · simp [formStep, hv]
  · intro hpos
    have hc : ¬(((st.activeIndex : ℤ) - 1) < 0 ∨ (cfg.numSteps : ℤ) ≤ (st.activeIndex : ℤ) - 1) := by
      omega
    have h1 : ((st.activeIndex : ℤ) - 1).toNat = st.activeIndex - 1 := by omega
    have h2 : st.activeIndex - 1 + 1 = st.activeIndex := by omega
    simp only [formStep, setStep]
    rw [if_neg hc]
    simp only [h1, h2]
  · intro hst
    show (setStep cfg st ((st.activeIndex : ℤ) - 1)).2 = []
    rw [setStep_reject (Or.inl (by omega))]

/-- Witness for C7 at `demoCfg`, from the middle state `demoMid`. -/
theorem C7_stepchange_events_witness :
    1 < demoCfg.numSteps
  ∧ demoMid.activeIndex < demoCfg.numSteps
  ∧ ((initForm demoCfg demoZero).2
       = [{ formId := evFormId demoCfg, stepIndex := 0, stepNumber := 1 }]
  ∧ (validateStep [some true] = true → demoMid.activeIndex + 1 < demoCfg.numSteps →
      (formStep demoCfg demoMid (.next [some true])).2
        = [{ formId := evFormId demoCfg, stepIndex := demoMid.activeIndex + 1,
             stepNumber := demoMid.activeIndex + 2 }])
  ∧ (validateStep [some true] = false → (formStep demoCfg demoMid (.next [some true])).2 = [])
  ∧ (demoMid.activeIndex = demoCfg.numSteps - 1 →
      (formStep demoCfg demoMid (.next [some true])).2 = [])
  ∧ (0 < demoMid.activeIndex → (formStep demoCfg demoMid .prev).2
        = [{ formId := evFormId demoCfg, stepIndex := demoMid.activeIndex - 1,
             stepNumber := demoMid.activeIndex }])
  ∧ (demoMid.activeIndex = 0 → (formStep demoCfg demoMid .prev).2 = [])) :=
  ⟨by decide, by decide,
   C7_stepchange_events demoCfg demoZero demoMid [some true] (by decide) (by decide)⟩

/-- Claim C10: every `amcho:stepchange` payload satisfies
`stepNumber = stepIndex + 1`, its `stepIndex` equals the form's
`activeIndex` at dispatch time (the assignment precedes the dispatch), and
`formId` is the form element's `id`, or `null` when the form has none
(`form.id || null`). -/
theorem C10_event_payload (cfg : FormCfg) (st : FormState) (n : ℤ) :
    ∀ ev ∈ (setStep cfg st n).2,
      ev.stepNumber = ev.stepIndex + 1
    ∧ ev.stepIndex = ((setStep cfg st n).1).activeIndex
    ∧ ev.formId = (if cfg.id = "" then none else some cfg.id) := by
  intro ev hev
  by_cases hc : n < 0 ∨ (cfg.numSteps : ℤ) ≤ n
  · simp [setStep, hc] at hev
  · simp only [setStep, hc, if_false] at hev ⊢
    simp only [List.mem_singleton] at hev
    subst hev
    exact ⟨rfl, rfl, by simp [evFormId]⟩

/-- Witness for C10 at the event emitted by `setStep demoCfg demoZero 1`. -/
theorem C10_event_payload_witness :
    demoEvent ∈ (setStep demoCfg demoZero 1).2
  ∧ (demoEvent.stepNumber = demoEvent.stepIndex + 1
  ∧ demoEvent.stepIndex = ((setStep demoCfg demoZero 1).1).activeIndex
  ∧ demoEvent.formId = (if demoCfg.id = "" then none else some demoCfg.id)) :=
  ⟨by decide, C10_event_payload demoCfg demoZero 1 demoEvent (by decide)⟩

/-! ## Claims about the sidebar controller -/

/-- Claim C8: with all three tracked elements present, one `openSidebar`
call leaves exactly the state with `active` on toggle, panel and overlay
and body scroll disabled, and one `closeSidebar` call leaves exactly the
state with `active` removed from all three and body scroll restored — the
four effects of either direction land together in the single resulting
state, never partially. -/
theorem C8_sidebar_atomic (s : SidebarDom)
    (ht : s.toggleActive.isSome = true) (hp : s.panelActive.isSome = true)
    (ho : s.overlayActive.isSome = true) :
    openSidebar s = { toggleActive := some true, panelActive := some true,
                      overlayActive := some true, bodyOverflow := "hidden" }
  ∧ closeSidebar s = { toggleActive := some false, panelActive := some false,
                       overlayActive := some false, bodyOverflow := "" } := by
  obtain ⟨a, ha⟩ := Option.isSome_iff_exists.mp ht
  obtain ⟨b, hb⟩ := Option.isSome_iff_exists.mp hp
  obtain ⟨c, hc⟩ := Option.isSome_iff_exists.mp ho
  constructor <;> simp [openSidebar, closeSidebar, ha, hb, hc]

/-- Witness for C8 at the concrete closed sidebar `demoSidebar`. -/
theorem C8_sidebar_atomic_witness :
    demoSidebar.toggleActive.isSome = true
  ∧ demoSidebar.panelActive.isSome = true
  ∧ demoSidebar.overlayActive.isSome = true
  ∧ (openSidebar demoSidebar
       = { toggleActive := some true, panelActive := some true,
           overlayActive := some true, bodyOverflow := "hidden" }
  ∧ closeSidebar demoSidebar
       = { toggleActive := some false, panelActive := some false,
           overlayActive := some false, bodyOverflow := "" }) :=
  ⟨by decide, by decide, by decide,
   C8_sidebar_atomic demoSidebar (by decide) (by decide) (by decide)⟩

/-- Claim C9: a resize to a width strictly past the 768 breakpoint while
the panel carries the `active` class force-closes the sidebar (the class
removed from all three present elements, body scroll restored); when the
sidebar is closed, or the width stays at or below the breakpoint, the
resize handler changes nothing. -/
theorem C9_resize_guard (w : ℕ) (s : SidebarDom)
    (ht : s.toggleActive.isSome = true) (ho : s.overlayActive.isSome = true) :
    (768 < w → s.panelActive = some true →
        onResize w s = { toggleActive := some false, panelActive := some false,
                         overlayActive := some false, bodyOverflow := "" })
  ∧ (s.panelActive ≠ some true → onResize w s = s)
  ∧ (w ≤ 768 → onResize w s = s) := by
  obtain ⟨a, ha⟩ := Option.isSome_iff_exists.mp ht
  obtain ⟨c, hc⟩ := Option.isSome_iff_exists.mp ho
  refine ⟨?_, ?_, ?_⟩
  · intro hw hpv
    simp [onResize, hw, hpv, closeSidebar, ha, hc]
  · intro hne
    simp [onResize, hne]
  · intro hw
    have h1 : ¬(w > 768) := by omega
    simp [onResize, h1]

/-- Witness for C9 at the open sidebar `demoOpenSidebar` and width 1024. -/
theorem C9_resize_guard_witness :
    demoOpenSidebar.toggleActive.isSome = true
  ∧ demoOpenSidebar.overlayActive.isSome = true
  ∧ ((768 < 1024 → demoOpenSidebar.panelActive = some true →
        onResize 1024 demoOpenSidebar
          = { toggleActive := some false, panelActive := some false,
              overlayActive := some false, bodyOverflow := "" })
  ∧ (demoOpenSidebar.panelActive ≠ some true → onResize 1024 demoOpenSidebar = demoOpenSidebar)
  ∧ (1024 ≤ 768 → onResize 1024 demoOpenSidebar = demoOpenSidebar)) :=
  ⟨by decide, by decide,
   C9_resize_guard 1024 demoOpenSidebar (by decide) (by decide)⟩

end Amcho
